import Mathlib

/-!
Shallow embedding of `repoze/bfg/security.py`: the security facade functions
(`has_permission`, `authenticated_userid`, `effective_principals`,
`principals_allowed_by_permission`, `remember`, `forget`), the result classes
(`PermitsResult` with subclasses `Allowed` / `Denied`, `ACLPermitsResult` with
subclasses `ACLAllowed` / `ACLDenied`) and the `AllPermissionsList` sentinel
with its instance `ALL_PERMISSIONS`.

The component registry (`queryUtility`) is modelled as an explicit `Registry`
value holding the optionally registered authentication and authorization
policy; a Python exception escaping a function is modelled with `Except`.
-/

/-- Python exceptions raised (or propagated) by the code under study.
`TypeError(args)` carries the offending argument tuple in Python; only the
exception class matters here. `ValueError` keeps its message string. -/
inductive PyErr where
  | typeError
  | valueError (msg : String)
  | notImplementedError
deriving DecidableEq, Repr

/-- True exactly on the `error` branch of an `Except` result. -/
def exceptIsError {ε α : Type} : Except ε α → Bool
  | .error _ => true
  | .ok _ => false

/-- `Everyone = 'system.Everyone'` from the source. -/
def Everyone : String := "system.Everyone"

/-- `Authenticated = 'system.Authenticated'` from the source. -/
def Authenticated : String := "system.Authenticated"

/-- `Allow = 'Allow'` from the source. -/
def Allow : String := "Allow"

/-- `Deny = 'Deny'` from the source. -/
def Deny : String := "Deny"

/-- A small universe of Python values, enough for the methods of
`AllPermissionsList`: strings, the `AllPermissionsList` instance itself,
tuples, and list iterators (the only iterator objects the model needs). -/
inductive PyVal where
  | str (s : String)
  | allPermissionsList
  | tuple (vs : List PyVal)
  | listIterator (vs : List PyVal)

/-- Whether a Python value is an iterator object.  Strings and tuples are
iterable but are not themselves iterators. -/
def PyVal.isIterator : PyVal → Bool
  | .listIterator _ => true
  | _ => false

/-- `ALL_PERMISSIONS = AllPermissionsList()` from the source. -/
def ALL_PERMISSIONS : PyVal := .allPermissionsList

/-- `AllPermissionsList.__contains__(self, other)`: `return True`. -/
def AllPermissionsList.containsMethod (other : PyVal) : Bool := true

/-- `AllPermissionsList.__eq__(self, other)`:
`return isinstance(other, self.__class__)`.  In the value universe the only
instance of the class is the `allPermissionsList` value. -/
def AllPermissionsList.eqMethod (other : PyVal) : Bool :=
  match other with
  | .allPermissionsList => true
  | _ => false

/-- `AllPermissionsList.__iter__(self)`: `return ()` — the empty tuple,
which is not an iterator. -/
def AllPermissionsList.iterMethod : PyVal := .tuple []

/-- The CPython builtin `iter(x)` calls `type(x).__iter__(x)` and raises
`TypeError` when the returned value is not an iterator object. -/
def iterBuiltin (dunderIterResult : PyVal) : Except PyErr PyVal :=
  if dunderIterResult.isIterator then .ok dunderIterResult
  else .error .typeError

/-- `DENY_ALL = (Deny, Everyone, ALL_PERMISSIONS)` from the source. -/
def DENY_ALL : String × String × PyVal := (Deny, Everyone, ALL_PERMISSIONS)

/-- Python percent-formatting `s % args` restricted to the directives this
module uses: `%s` consumes the next argument, `%%` is a literal percent sign,
every other character is copied.  (The strings the claims evaluate contain no
directive at all, so this subset is exact there.) -/
def percentFormatAux : List Char → List String → List Char
  | [], _ => []
  | '%' :: 's' :: rest, a :: as => a.data ++ percentFormatAux rest as
  | '%' :: '%' :: rest, as => '%' :: percentFormatAux rest as
  | c :: rest, as => c :: percentFormatAux rest as

/-- Python `s % args` over the subset of directives used by this module. -/
def percentFormat (s : String) (args : List String) : String :=
  ⟨percentFormatAux s.data args⟩

/-- `class PermitsResult(int)`: an instance stores the integer value
`cls.boolval` (0 for `Denied`, 1 for `Allowed`) plus the lazy message parts
`s` and `args`. -/
structure PermitsResult where
  boolval : Nat
  s : String
  args : List String
deriving DecidableEq, Repr

/-- Constructing an `Allowed(s, *args)` instance: `boolval = 1`. -/
def Allowed (s : String) (args : List String) : PermitsResult :=
  ⟨1, s, args⟩

/-- Constructing a `Denied(s, *args)` instance: `boolval = 0`. -/
def Denied (s : String) (args : List String) : PermitsResult :=
  ⟨0, s, args⟩

/-- Boolean coercion of an `int` subclass instance: true iff nonzero. -/
def PermitsResult.toBool (r : PermitsResult) : Bool := r.boolval != 0

/-- The `msg` property: `return self.s % self.args`. -/
def PermitsResult.msg (r : PermitsResult) : String := percentFormat r.s r.args

/-- `class ACLPermitsResult(int)`: stores the integer value `cls.boolval`
plus the `ace`, `acl`, `permission`, `principals` and `context` attributes
assigned in `__new__`. -/
structure ACLPermitsResult (A L P Pr C : Type) where
  boolval : Nat
  ace : A
  acl : L
  permission : P
  principals : Pr
  context : C

/-- Constructing an `ACLAllowed(ace, acl, permission, principals, context)`
instance: `boolval = 1`. -/
def ACLAllowed {A L P Pr C : Type} (ace : A) (acl : L) (permission : P)
    (principals : Pr) (context : C) : ACLPermitsResult A L P Pr C :=
  ⟨1, ace, acl, permission, principals, context⟩

/-- Constructing an `ACLDenied(ace, acl, permission, principals, context)`
instance: `boolval = 0`. -/
def ACLDenied {A L P Pr C : Type} (ace : A) (acl : L) (permission : P)
    (principals : Pr) (context : C) : ACLPermitsResult A L P Pr C :=
  ⟨0, ace, acl, permission, principals, context⟩

/-- Boolean coercion of an `int` subclass instance: true iff nonzero. -/
def ACLPermitsResult.toBool {A L P Pr C : Type}
    (r : ACLPermitsResult A L P Pr C) : Bool := r.boolval != 0

/-- The `IAuthenticationPolicy` capability, over a value type `V` for
contexts and requests and a type `K` for the keyword arguments of
`remember`.  The context argument of `authenticated_userid` and
`effective_principals` is `Option V` because the facade functions pass the
Python `None` there on the deprecated single-argument path. -/
structure AuthenticationPolicy (V K : Type) where
  authenticated_userid : Option V → V → Option String
  effective_principals : Option V → V → List String
  remember : V → V → V → K → List (String × String)
  forget : V → V → List (String × String)

/-- The `IAuthorizationPolicy` capability; `permits` returns a value of the
policy-chosen result type `R`, `principals_allowed_by_permission` may raise
`NotImplementedError` for exotic policies. -/
structure AuthorizationPolicy (V R : Type) where
  permits : V → List String → String → R
  principals_allowed_by_permission : V → String → Except PyErr (List String)

/-- The component registry as consulted through `queryUtility`: at most one
authentication policy and at most one authorization policy registered. -/
structure Registry (V K R : Type) where
  authn : Option (AuthenticationPolicy V K)
  authz : Option (AuthorizationPolicy V R)

/-- A value returned by `has_permission`: either a plain `PermitsResult`
built by the facade itself, or whatever the authorization policy `permits`
method returned. -/
inductive HasPermOutcome (R : Type) where
  | facade (r : PermitsResult)
  | policy (r : R)

/-- `has_permission(permission, context, request)` from the source:
look up the authentication policy; if absent, return
`Allowed('No authentication policy in use.')`; otherwise look up the
authorization policy; if absent, raise
`ValueError('Authentication policy registered without authorization
policy')`; otherwise ask the authentication policy for the effective
principals and return `authz_policy.permits(context, principals,
permission)`. -/
def has_permission {V K R : Type} (permission : String) (context : V)
    (request : V) (reg : Registry V K R) :
    Except PyErr (HasPermOutcome R) :=
  match reg.authn with
  | none => .ok (.facade (Allowed "No authentication policy in use." []))
  | some authn_policy =>
    match reg.authz with
    | none => .error (.valueError
        "Authentication policy registered without authorization policy")
    | some authz_policy =>
      let principals := authn_policy.effective_principals (some context) request
      .ok (.policy (authz_policy.permits context principals permission))

/-- The `*args` handling shared verbatim by `authenticated_userid` and
`effective_principals`: more than two positional arguments raise
`TypeError(args)`; exactly one argument is the deprecated form with
`context = None`; otherwise `context, request = args`, which on an empty
tuple raises the unpacking `ValueError`. -/
def dispatchAuthArgs {V : Type} (args : List V) :
    Except PyErr (Option V × V) :=
  if args.length > 2 then .error .typeError
  else
    match args with
    | [request] => .ok (none, request)
    | [c, r] => .ok (some c, r)
    | _ => .error (.valueError "need more than 0 values to unpack")

/-- `authenticated_userid(*args)` from the source: parse the arguments,
look up the authentication policy, return `None` when none is registered,
otherwise delegate to `policy.authenticated_userid(context, request)`. -/
def authenticated_userid {V K R : Type} (args : List V)
    (reg : Registry V K R) : Except PyErr (Option String) :=
  match dispatchAuthArgs args with
  | .error e => .error e
  | .ok (context, request) =>
    match reg.authn with
    | none => .ok none
    | some policy => .ok (policy.authenticated_userid context request)

/-- `effective_principals(*args)` from the source: parse the arguments,
look up the authentication policy, return `[]` when none is registered,
otherwise delegate to `policy.effective_principals(context, request)`. -/
def effective_principals {V K R : Type} (args : List V)
    (reg : Registry V K R) : Except PyErr (List String) :=
  match dispatchAuthArgs args with
  | .error e => .error e
  | .ok (context, request) =>
    match reg.authn with
    | none => .ok []
    | some policy => .ok (policy.effective_principals context request)

/-- `principals_allowed_by_permission(context, permission)` from the source:
look up the authorization policy, return `[Everyone]` when none is
registered, otherwise delegate (which may raise `NotImplementedError`). -/
def principals_allowed_by_permission {V K R : Type} (context : V)
    (permission : String) (reg : Registry V K R) :
    Except PyErr (List String) :=
  match reg.authz with
  | none => .ok [Everyone]
  | some policy => policy.principals_allowed_by_permission context permission

/-- `remember(context, request, principal, **kw)` from the source: look up
the authentication policy, return `[]` when none is registered, otherwise
delegate to `policy.remember`. -/
def remember {V K R : Type} (context : V) (request : V) (principal : V)
    (kw : K) (reg : Registry V K R) : List (String × String) :=
  match reg.authn with
  | none => []
  | some policy => policy.remember context request principal kw

/-- `forget(context, request)` from the source: look up the authentication
policy, return `[]` when none is registered, otherwise delegate to
`policy.forget`. -/
def forget {V K R : Type} (context : V) (request : V)
    (reg : Registry V K R) : List (String × String) :=
  match reg.authn with
  | none => []
  | some policy => policy.forget context request

/-- A registry with neither policy registered, over trivial value types. -/
def regNone : Registry Unit Unit Unit := ⟨none, none⟩

/-- An authentication policy with trivial behaviour, used to populate
concrete registries. -/
def trivialAuthn : AuthenticationPolicy Unit Unit :=
  ⟨fun _ _ => some "fred", fun _ _ => [Everyone], fun _ _ _ _ => [],
   fun _ _ => []⟩

/-- An authorization policy with trivial behaviour, used to populate
concrete registries. -/
def trivialAuthz : AuthorizationPolicy Unit Unit :=
  ⟨fun _ _ _ => (), fun _ _ => .ok []⟩

/-- A registry with only an authentication policy registered. -/
def regAuthnOnly : Registry Unit Unit Unit := ⟨some trivialAuthn, none⟩

/-- A registry with only an authorization policy registered. -/
def regAuthzOnly : Registry Unit Unit Unit := ⟨none, some trivialAuthz⟩

/-- Claim C1: for every permission, context and request, if no
authentication policy is registered then `has_permission` returns the
`Allowed` result with message "No authentication policy in use." — which is
truthy — regardless of whether an authorization policy is registered. -/
theorem has_permission_no_authn_allows {V K R : Type} (permission : String)
    (context request : V) (reg : Registry V K R)
    (h : reg.authn = none) :
    has_permission permission context request reg =
      .ok (.facade (Allowed "No authentication policy in use." [])) ∧
    (Allowed "No authentication policy in use." []).toBool = true ∧
    (Allowed "No authentication policy in use." []).msg =
      "No authentication policy in use." := by
  obtain ⟨authn, authz⟩ := reg
  cases authn with
  | none => exact ⟨rfl, rfl, rfl⟩
  | some p => exact Option.noConfusion h

/-- Witness for C1 at a concrete registry holding an authorization policy
but no authentication policy. -/
theorem has_permission_no_authn_allows_witness :
    regAuthzOnly.authn = none ∧
    (has_permission "view" () () regAuthzOnly =
      .ok (.facade (Allowed "No authentication policy in use." [])) ∧
    (Allowed "No authentication policy in use." []).toBool = true ∧
    (Allowed "No authentication policy in use." []).msg =
      "No authentication policy in use.") :=
  ⟨rfl, has_permission_no_authn_allows "view" () () regAuthzOnly rfl⟩

/-- Claim C2: for every permission, context and request, if an
authentication policy is registered but no authorization policy is
registered, `has_permission` raises the `ValueError` announcing the
misconfiguration instead of returning any result. -/
theorem has_permission_missing_authz_raises {V K R : Type}
    (permission : String) (context request : V) (reg : Registry V K R)
    (h1 : reg.authn ≠ none) (h2 : reg.authz = none) :
    has_permission permission context request reg = .error (.valueError
      "Authentication policy registered without authorization policy") := by
  obtain ⟨authn, authz⟩ := reg
  cases authn with
  | none => exact absurd rfl h1
  | some p =>
    cases authz with
    | none => rfl
    | some q => exact Option.noConfusion h2

/-- Witness for C2 at a concrete registry holding an authentication policy
and no authorization policy. -/
theorem has_permission_missing_authz_raises_witness :
    regAuthnOnly.authn ≠ none ∧ regAuthnOnly.authz = none ∧
    has_permission "view" () () regAuthnOnly = .error (.valueError
      "Authentication policy registered without authorization policy") :=
  ⟨fun h => Option.noConfusion h, rfl,
   has_permission_missing_authz_raises "view" () () regAuthnOnly
     (fun h => Option.noConfusion h) rfl⟩

/-- Counterexample to claim C3: with an authorization policy registered and
no authentication policy, `has_permission` does not propagate any error —
it returns the ordinary truthy `Allowed` result. -/
theorem has_permission_authz_only_counterexample :
    exceptIsError (has_permission "view" () () regAuthzOnly) = false ∧
    has_permission "view" () () regAuthzOnly =
      .ok (.facade (Allowed "No authentication policy in use." [])) :=
  ⟨rfl, rfl⟩

/-- Amended claim C3: whenever an authorization policy is registered but no
authentication policy is registered, `has_permission` does not raise: it
returns the ordinary `Allowed` result with message "No authentication
policy in use.".  The fatal configuration error is raised only in the
opposite case, an authentication policy without an authorization policy. -/
theorem has_permission_authz_only_allows {V K R : Type}
    (permission : String) (context request : V) (reg : Registry V K R)
    (h1 : reg.authn = none) (h2 : reg.authz ≠ none) :
    has_permission permission context request reg =
      .ok (.facade (Allowed "No authentication policy in use." [])) ∧
    exceptIsError (has_permission permission context request reg) = false := by
  obtain ⟨authn, authz⟩ := reg
  cases authn with
  | none => exact ⟨rfl, rfl⟩
  | some p => exact Option.noConfusion h1

/-- Witness for the amended C3 at a concrete registry holding only an
authorization policy. -/
theorem has_permission_authz_only_allows_witness :
    regAuthzOnly.authn = none ∧ regAuthzOnly.authz ≠ none ∧
    (has_permission "edit" () () regAuthzOnly =
      .ok (.facade (Allowed "No authentication policy in use." [])) ∧
    exceptIsError (has_permission "edit" () () regAuthzOnly) = false) :=
  ⟨rfl, fun h => Option.noConfusion h,
   has_permission_authz_only_allows "edit" () () regAuthzOnly rfl
     (fun h => Option.noConfusion h)⟩

/-- Claim C4: every `Allowed` and `ACLAllowed` instance coerces to boolean
true and every `Denied` and `ACLDenied` instance coerces to boolean false,
whatever the format string, arguments, ace, acl, permission, principals or
context it was constructed with; different message arguments never change
truthiness. -/
theorem permits_result_truthiness :
    (∀ (s : String) (args : List String) (t : String) (brgs : List String),
      (Allowed s args).toBool = true ∧
      (Denied s args).toBool = false ∧
      (Allowed s args).toBool = (Allowed t brgs).toBool ∧
      (Denied s args).toBool = (Denied t brgs).toBool) ∧
    (∀ (A L P Pr C : Type) (ace : A) (acl : L) (perm : P) (prin : Pr)
      (ctx : C),
      (ACLAllowed ace acl perm prin ctx).toBool = true ∧
      (ACLDenied ace acl perm prin ctx).toBool = false) :=
  ⟨fun _ _ _ _ => ⟨rfl, rfl, rfl, rfl⟩,
   fun _ _ _ _ _ _ _ _ _ _ => ⟨rfl, rfl⟩⟩

/-- Claim C5: for every string, including the empty string, the membership
test against `ALL_PERMISSIONS` is true. -/
theorem all_permissions_contains_all_strings (s : String) :
    AllPermissionsList.containsMethod (.str s) = true := rfl

/-- Counterexample to claim C6: the equality test of `ALL_PERMISSIONS`
against the permission string "view" is false, because the `__eq__` method
only accepts instances of `AllPermissionsList`. -/
theorem all_permissions_eq_string_counterexample :
    AllPermissionsList.eqMethod (.str "view") = false ∧
    ALL_PERMISSIONS = .allPermissionsList :=
  ⟨rfl, rfl⟩

/-- Amended claim C6: `ALL_PERMISSIONS == p` is false for every permission
string `p`; the marker compares equal only to an instance of
`AllPermissionsList` (such as `ALL_PERMISSIONS` itself).  Matching every
permission happens through the membership test, not equality. -/
theorem all_permissions_eq_only_marker (s : String) :
    AllPermissionsList.eqMethod (.str s) = false ∧
    AllPermissionsList.eqMethod ALL_PERMISSIONS = true :=
  ⟨rfl, rfl⟩

/-- Claim C7: for every context and request, with no authentication policy
registered, `authenticated_userid` returns `None`, `effective_principals`
returns the empty sequence, and `remember` and `forget` return empty
sequences of header directives. -/
theorem no_authn_policy_fallbacks {V K R : Type} (c r p : V) (kw : K)
    (reg : Registry V K R) (h : reg.authn = none) :
    authenticated_userid [c, r] reg = .ok none ∧
    effective_principals [c, r] reg = .ok [] ∧
    remember c r p kw reg = [] ∧
    forget c r reg = [] := by
  obtain ⟨authn, authz⟩ := reg
  cases authn with
  | none => exact ⟨rfl, rfl, rfl, rfl⟩
  | some q => exact Option.noConfusion h

/-- Witness for C7 at the empty registry. -/
theorem no_authn_policy_fallbacks_witness :
    regNone.authn = none ∧
    (authenticated_userid [(), ()] regNone = .ok none ∧
    effective_principals [(), ()] regNone = .ok [] ∧
    remember () () () () regNone = [] ∧
    forget () () regNone = []) :=
  ⟨rfl, no_authn_policy_fallbacks () () () () regNone rfl⟩

/-- Counterexample to claim C8: a zero-argument call fails, but with the
tuple-unpacking `ValueError`, not with `TypeError`. -/
theorem zero_arity_error_counterexample :
    authenticated_userid ([] : List Unit) regNone =
      .error (.valueError "need more than 0 values to unpack") ∧
    effective_principals ([] : List Unit) regNone =
      .error (.valueError "need more than 0 values to unpack") ∧
    (PyErr.valueError "need more than 0 values to unpack") ≠
      PyErr.typeError :=
  ⟨rfl, rfl, fun h => PyErr.noConfusion h⟩

/-- Amended claim C8: every call to `authenticated_userid` or
`effective_principals` with an unsupported number of positional arguments
(any arity other than one or two) fails with an error; with three or more
arguments the error is `TypeError`, while with zero arguments it is the
tuple-unpacking `ValueError` rather than `TypeError`. -/
theorem unsupported_arity_errors {V K R : Type} (args : List V)
    (reg : Registry V K R) (h1 : args.length ≠ 1) (h2 : args.length ≠ 2) :
    exceptIsError (authenticated_userid args reg) = true ∧
    exceptIsError (effective_principals args reg) = true ∧
    (3 ≤ args.length →
      authenticated_userid args reg = .error .typeError ∧
      effective_principals args reg = .error .typeError) ∧
    (args.length = 0 →
      authenticated_userid args reg =
        .error (.valueError "need more than 0 values to unpack") ∧
      effective_principals args reg =
        .error (.valueError "need more than 0 values to unpack")) := by
  match args with
  | [] =>
    refine ⟨rfl, rfl, fun h => absurd h (by simp), fun _ => ⟨rfl, rfl⟩⟩
  | [a] => exact absurd rfl h1
  | [a, b] => exact absurd rfl h2
  | a :: b :: c :: rest =>
    have hd : dispatchAuthArgs (a :: b :: c :: rest) =
        .error PyErr.typeError := by
      unfold dispatchAuthArgs
      rw [if_pos]
      simp only [List.length_cons]
      omega
    have ha : authenticated_userid (a :: b :: c :: rest) reg =
        .error PyErr.typeError := by
      unfold authenticated_userid
      rw [hd]
    have he : effective_principals (a :: b :: c :: rest) reg =
        .error PyErr.typeError := by
      unfold effective_principals
      rw [hd]
    refine ⟨by rw [ha]; rfl, by rw [he]; rfl,
      fun _ => ⟨ha, he⟩, fun h => absurd h (by simp)⟩

/-- Witness for the amended C8 at a concrete three-argument call. -/
theorem unsupported_arity_errors_witness :
    ([(), (), ()] : List Unit).length ≠ 1 ∧
    ([(), (), ()] : List Unit).length ≠ 2 ∧
    (exceptIsError (authenticated_userid [(), (), ()] regNone) = true ∧
    exceptIsError (effective_principals [(), (), ()] regNone) = true ∧
    (3 ≤ ([(), (), ()] : List Unit).length →
      authenticated_userid [(), (), ()] regNone = .error .typeError ∧
      effective_principals [(), (), ()] regNone = .error .typeError) ∧
    (([(), (), ()] : List Unit).length = 0 →
      authenticated_userid [(), (), ()] regNone =
        .error (.valueError "need more than 0 values to unpack") ∧
      effective_principals [(), (), ()] regNone =
        .error (.valueError "need more than 0 values to unpack"))) :=
  ⟨by decide, by decide,
   unsupported_arity_errors [(), (), ()] regNone (by decide) (by decide)⟩

/-- Claim C9: for every context and permission, with no authorization
policy registered, `principals_allowed_by_permission` returns the
one-element sequence holding only the `Everyone` principal. -/
theorem principals_allowed_no_authz_everyone {V K R : Type} (context : V)
    (permission : String) (reg : Registry V K R) (h : reg.authz = none) :
    principals_allowed_by_permission context permission reg =
      .ok [Everyone] := by
  obtain ⟨authn, authz⟩ := reg
  cases authz with
  | none => rfl
  | some p => exact Option.noConfusion h

/-- Witness for C9 at the empty registry. -/
theorem principals_allowed_no_authz_everyone_witness :
    regNone.authz = none ∧
    principals_allowed_by_permission () "view" regNone = .ok [Everyone] :=
  ⟨rfl, principals_allowed_no_authz_everyone () "view" regNone rfl⟩

/-- Claim C10: obtaining an iterator over `ALL_PERMISSIONS` raises
`TypeError`, because the `__iter__` method returns the empty tuple, which
is not an iterator; iterating the marker is therefore impossible. -/
theorem all_permissions_iter_raises :
    AllPermissionsList.iterMethod = PyVal.tuple [] ∧
    PyVal.isIterator AllPermissionsList.iterMethod = false ∧
    iterBuiltin AllPermissionsList.iterMethod = .error .typeError :=
  ⟨rfl, rfl, rfl⟩
